import Mathlib

/-!
Shallow embedding of the browser session/authentication controller found in
`dev-portal/src/components/NavBar.jsx` (the `services/self` module half of the
file: `isAuthenticated`, `isRegistered`, `isAdmin`, `init`, `login`, `logout`,
`setCredentials`, `refreshActivity`, `logoutInactive`, and the redirect URL
builders).

Modelling conventions:
 - JS values that may be `undefined`/`null` become `Option`.
 - The module-level mutable state (the mobx `store.idToken`, the
   `inactivityTimeout` variable, the `hasReset` flag, `window.localStorage`,
   assignments to `window.location`) is gathered into one record `SelfState`,
   threaded explicitly through the operations.
 - Browser timers: `setTimeout` returns a fresh positive id and records the
   id in `pendingTimers` (the deadlines the browser still holds);
   `clearTimeout id` removes it.  The `inactivityTimeout` variable of the
   source is the field `timeoutVar`.  `requestAnimationFrame` registration is
   the flag `rafPending`; the `animationFrame` step runs the registered
   callback (which in the source only does `hasReset = false`).
 - External collaborators are an environment `Env`: the `jwt-decode` library
   is an arbitrary function `decode : String → Option TokenPayload` (`none`
   models a thrown decode exception), the clock `new Date` is `now`
   (milliseconds), the config values `cognitoDomain`/`cognitoClientId`/
   `cognitoUserPoolId`, the current `window.location` pieces, and the outcome
   of `AWS.config.credentials.refresh` (`refreshError`).
 - Observation counters (`refreshCalls`, `errorLogs`, `reschedules`) are
   ghost fields: they record how often the credentials refresh is invoked,
   `console.error` is called, and `refreshActivity` performs its
   clearTimeout/setTimeout reset; no operation reads them.
-/

/-- Decoded JWT claims actually used by the source: the `exp` claim (epoch
seconds) and the `cognito:preferred_role` claim (absent ⇒ `none`). -/
structure TokenPayload where
  exp : Int
  preferredRole : Option String
  deriving DecidableEq

/-- External collaborators and configuration of the module. -/
structure Env where
  decode : String → Option TokenPayload
  now : Int
  locationHash : String
  protocol : String
  host : String
  cognitoDomain : Option String
  cognitoClientId : String
  cognitoUserPoolId : String
  refreshError : Option String

/-- The module-level mutable state of `services/self` plus the browser
resources it touches. -/
structure SelfState where
  idToken : Option String
  localStorage : List (String × String)
  timeoutVar : Option Nat
  pendingTimers : List Nat
  nextTimerId : Nat
  hasReset : Bool
  rafPending : Bool
  redirects : List String
  refreshCalls : Nat
  errorLogs : Nat
  reschedules : Nat
  deriving DecidableEq

/-- State at process start: nothing set, no timers, fresh counters. -/
def initialSelfState : SelfState :=
  { idToken := none
    localStorage := []
    timeoutVar := none
    pendingTimers := []
    nextTimerId := 1
    hasReset := false
    rafPending := false
    redirects := []
    refreshCalls := 0
    errorLogs := 0
    reschedules := 0 }

/-- JS truthiness of an optional string: `undefined`/`null` and the empty
string are falsy. -/
def truthy : Option String → Bool
  | none => false
  | some s => s != ""

/-- JS `String.prototype.startsWith` on character lists. -/
def startsWithChars : List Char → List Char → Bool
  | [], _ => true
  | _ :: _, [] => false
  | p :: ps, c :: cs => p == c && startsWithChars ps cs

/-- Substring search on character lists. -/
def hasSubChars (pat : List Char) : List Char → Bool
  | [] => pat.isEmpty
  | c :: cs => startsWithChars pat (c :: cs) || hasSubChars pat cs

/-- JS `s.includes(pat)`: substring containment. -/
def strIncludes (s pat : String) : Bool :=
  hasSubChars pat.data s.data

/-- `window.localStorage.getItem`. -/
def lsGet (m : List (String × String)) (k : String) : Option String :=
  (m.find? (fun p => p.1 == k)).map (fun p => p.2)

/-- `window.localStorage.setItem`: replace the binding if the key exists,
append otherwise. -/
def lsSet (m : List (String × String)) (k v : String) : List (String × String) :=
  if m.any (fun p => p.1 == k) then
    m.map (fun p => if p.1 == k then (k, v) else p)
  else m ++ [(k, v)]

/-- `setTimeout(logoutInactive, clientSessionTimeout)`: allocate a fresh timer
id and record it as pending with the browser. -/
def newTimer (s : SelfState) : Nat × SelfState :=
  (s.nextTimerId,
   { s with pendingTimers := s.pendingTimers ++ [s.nextTimerId]
            nextTimerId := s.nextTimerId + 1 })

/-- `clearTimeout(id)`: the browser forgets the pending deadline. -/
def clearTimer (s : SelfState) (id : Nat) : SelfState :=
  { s with pendingTimers := s.pendingTimers.filter (fun t => t != id) }

/-- Modelled from the spec: `store.resetUserData()` is defined in
`services/state`, which is not among the provided sources.  Per the spec
(TokenStore contract) it clears the token and all cached user-derived data
atomically; only the token is observable in this model. -/
def resetUserData (s : SelfState) : SelfState :=
  { s with idToken := none }

/-- Source `getLoginRedirectUrl`. -/
def getLoginRedirectUrl (env : Env) : String :=
  env.protocol ++ "//" ++ env.host ++ "/index.html?action=login"

/-- Source `getLogoutRedirectUrl`. -/
def getLogoutRedirectUrl (env : Env) : String :=
  env.protocol ++ "//" ++ env.host ++ "/index.html?action=logout"

/-- Source `getInactiveLogoutRedirectUrl`. -/
def getInactiveLogoutRedirectUrl (env : Env) : String :=
  env.protocol ++ "//" ++ env.host ++ "/index.html?action=logout&reason=inactive"

/-- Source `isAuthenticated`: returns `store.idToken` (used as a boolean). -/
def isAuthenticated (s : SelfState) : Bool :=
  truthy s.idToken

/-- Source `getPreferredRole`:
`jwtDecode(store.idToken)['cognito:preferred_role'] || ''`.
Result `none` models the decode exception propagating (token absent or not
decodable). -/
def getPreferredRole (env : Env) (s : SelfState) : Option String :=
  match s.idToken with
  | none => none
  | some t =>
    (env.decode t).map (fun p =>
      match p.preferredRole with
      | none => ""
      | some r => r)

/-- Source `isRegistered`.  `none` models an uncaught decode exception. -/
def isRegistered (env : Env) (s : SelfState) : Option Bool :=
  if !truthy s.idToken then some false
  else
    (getPreferredRole env s).map (fun role =>
      strIncludes role "-CognitoAdminRole-" ||
      strIncludes role "-CognitoRegisteredRole-")

/-- Source `isAdmin`: `store.idToken && getPreferredRole().includes(...)`.
A falsy token short-circuits to a falsy value (modelled `some false`);
`none` models an uncaught decode exception. -/
def isAdmin (env : Env) (s : SelfState) : Option Bool :=
  if !truthy s.idToken then some false
  else
    (getPreferredRole env s).map (fun role =>
      strIncludes role "-CognitoAdminRole-")

/-- Validity test inlined in source `init`:
`valid = parsedToken.exp * 1000 > new Date()`. -/
def tokenValid (p : TokenPayload) (now : Int) : Bool :=
  decide (p.exp * 1000 > now)

/-- Source `logout`: only acts when a token is set; clears the store and the
whole localStorage and, when a cognito domain is configured, navigates to the
provider logout URL.  It does not touch `inactivityTimeout`. -/
def logout (env : Env) (s : SelfState) : SelfState :=
  if truthy s.idToken then
    let s1 := resetUserData s
    let s2 := { s1 with localStorage := [] }
    match env.cognitoDomain with
    | some d =>
      { s2 with redirects := s2.redirects ++
          [d ++ "/logout?client_id=" ++ env.cognitoClientId ++
           "&logout_uri=" ++ getLogoutRedirectUrl env] }
    | none => s2
  else s

/-- Source `logoutInactive` (timer callback body): defensive early return when
the handle is gone or a reset raced in; otherwise null the handle and, if a
token is set, clear state and redirect with the inactivity URL. -/
def logoutInactive (env : Env) (s : SelfState) : SelfState :=
  if s.timeoutVar.isNone || s.hasReset then s
  else
    let s1 := { s with timeoutVar := none }
    if truthy s1.idToken then
      let s2 := resetUserData s1
      let s3 := { s2 with localStorage := [] }
      match env.cognitoDomain with
      | some d =>
        { s3 with redirects := s3.redirects ++
            [d ++ "/logout?client_id=" ++ env.cognitoClientId ++
             "&logout_uri=" ++ getInactiveLogoutRedirectUrl env] }
      | none => s3
    else s1

/-- The browser fires pending timer `id`: the deadline is consumed and the
callback `logoutInactive` runs. -/
def fireTimer (env : Env) (id : Nat) (s : SelfState) : SelfState :=
  if s.pendingTimers.contains id then logoutInactive env (clearTimer s id)
  else s

/-- Source `refreshActivity`: throttled by `hasReset` to one reset per
animation frame; cancels the current deadline and schedules a fresh one.
The ghost counter `reschedules` counts executions of the reset branch. -/
def refreshActivity (s : SelfState) : SelfState :=
  if s.timeoutVar.isSome && !s.hasReset then
    let s1 := { s with hasReset := true, rafPending := true }
    let s2 :=
      match s1.timeoutVar with
      | some id => clearTimer s1 id
      | none => s1
    let (id, s3) := newTimer s2
    { s3 with timeoutVar := some id, reschedules := s3.reschedules + 1 }
  else s

/-- The rendering engine runs the queued `requestAnimationFrame` callback,
which in the source is `() => { hasReset = false }`. -/
def animationFrame (s : SelfState) : SelfState :=
  if s.rafPending then { s with hasReset := false, rafPending := false } else s

/-- Outcome of source `setCredentials`, seen by its caller: a synchronous
throw (the `jwtDecode` at its top), or the returned promise eventually
rejecting (refresh error) or resolving. -/
inductive SCOutcome
  | thrown
  | promiseRejected (e : String)
  | promiseResolved
  deriving DecidableEq

/-- Source `setCredentials`: first schedules the inactivity timeout
(overwriting the variable without clearing a previous deadline), then decodes
the stored token (a failure throws synchronously), builds the credentials and
invokes `AWS.config.credentials.refresh` (counted by `refreshCalls`).  On
refresh error the error is logged (`console.error`) and the promise rejects;
on success the downstream effects (`initApiGatewayClient`,
`updateAllUserData`, the best-effort `/signin` post) are not observable
here. -/
def setCredentials (env : Env) (s : SelfState) : SelfState × SCOutcome :=
  let idAndState := newTimer s
  let s2 := { idAndState.2 with timeoutVar := some idAndState.1 }
  match s2.idToken with
  | none => (s2, SCOutcome.thrown)
  | some t =>
    match env.decode t with
    | none => (s2, SCOutcome.thrown)
    | some _ =>
      let s3 := { s2 with refreshCalls := s2.refreshCalls + 1 }
      match env.refreshError with
      | some e =>
        ({ s3 with errorLogs := s3.errorLogs + 1 }, SCOutcome.promiseRejected e)
      | none => (s3, SCOutcome.promiseResolved)

/-- JS `str.split(sep)` for a one-character separator, on character lists:
`''.split(c) = ['']`, separators at the ends produce empty pieces. -/
def splitOnChar (c : Char) : List Char → List (List Char)
  | [] => [[]]
  | x :: xs =>
    if x == c then [] :: splitOnChar c xs
    else
      match splitOnChar c xs with
      | [] => [[x]]
      | y :: ys => (x :: y) :: ys

/-- The leading-hash removal `replace(/^#/, '')`. -/
def stripLeadingHash (l : List Char) : List Char :=
  match l with
  | [] => l
  | c :: rest => if c == '#' then rest else l

/-- The fragment scan of source `login`: split on `&`, split each parameter
on `=`, and for every parameter named `id_token` (re-)assign the recorded
value to the part after the first `=` (which may be absent). -/
def extractIdToken (frag : String) : Option String :=
  let params := (splitOnChar '&' (stripLeadingHash frag.data)).map (splitOnChar '=')
  let raw :=
    params.foldl
      (fun acc parts =>
        if parts.head? == some ("id_token".data) then (parts.drop 1).head? else acc)
      (none : Option (List Char))
  raw.map (fun l => String.mk l)

/-- Observable fate of the promise returned by source `login`: `pending` when
neither `resolve` nor `reject` was invoked by the executor. -/
inductive LoginResult
  | pending
  | resolved (t : String)
  | rejected
  deriving DecidableEq

/-- Source `login`: parse the location fragment; with no truthy `id_token`
the executor finishes without settling the promise.  Otherwise persist the
token, set the store, run `setCredentials` (a synchronous throw there is
caught and rejects; the promise it returns is ignored) and resolve. -/
def login (env : Env) (s : SelfState) : SelfState × LoginResult :=
  match extractIdToken env.locationHash with
  | none => (s, LoginResult.pending)
  | some tok =>
    if tok == "" then (s, LoginResult.pending)
    else
      let s1 := { s with localStorage := lsSet s.localStorage env.cognitoUserPoolId tok }
      let s2 := { s1 with idToken := some tok }
      let scr := setCredentials env s2
      match scr.2 with
      | SCOutcome.thrown => (scr.1, LoginResult.rejected)
      | _ => (scr.1, LoginResult.resolved tok)

/-- Source `init`: read the persisted token; decode failures are caught
(logged via `console.error`) and leave `valid` false.  A valid token is
restored into the store and credentials are refreshed; otherwise `logout()`
runs to force a consistent cleared state. -/
def init (env : Env) (s : SelfState) : SelfState :=
  let stored := lsGet s.localStorage env.cognitoUserPoolId
  let checked :=
    match stored with
    | none => (false, 0)
    | some tok =>
      if tok == "" then (false, 0)
      else
        match env.decode tok with
        | none => (false, 1)
        | some p => (tokenValid p env.now, 0)
  let s0 := { s with errorLogs := s.errorLogs + checked.2 }
  if checked.1 then
    let s1 := { s0 with idToken := stored }
    (setCredentials env s1).1
  else logout env s0

/-- Decode used by the concrete test environments: token `ABC` carries an
admin preferred role and expiry epoch second 2; token `OLD` has expiry epoch
second 1 and no role claim; everything else fails to decode. -/
def testDecode : String → Option TokenPayload := fun t =>
  if t == "ABC" then some { exp := 2, preferredRole := some "x-CognitoAdminRole-y" }
  else if t == "OLD" then some { exp := 1, preferredRole := none }
  else none

/-- Concrete environment: hosted-login return fragment carrying `id_token`,
clock before the token expiry, refresh succeeding. -/
def envA : Env :=
  { decode := testDecode
    now := 0
    locationHash := "#id_token=ABC&other=x"
    protocol := "https:"
    host := "portal.example"
    cognitoDomain := some "https://cd"
    cognitoClientId := "cid"
    cognitoUserPoolId := "pool"
    refreshError := none }

/-- Concrete environment whose fragment carries only an `access_token`. -/
def envB : Env := { envA with locationHash := "#access_token=ABC" }

/-- Concrete environment in which the credentials exchange fails. -/
def envC : Env := { envA with refreshError := some "NetworkingError" }

/-- Concrete environment whose clock is far past both token expiries. -/
def envD : Env := { envA with now := 1700000000000 }

/-- State with the `ABC` token in the store (authenticated). -/
def sAuth : SelfState := { initialSelfState with idToken := some "ABC" }

/-- State with the expiring token `OLD` persisted under the pool key. -/
def sOld : SelfState := { initialSelfState with localStorage := [("pool", "OLD")] }

/-- State right after a successful `login` in `envA`. -/
def sLoggedIn : SelfState := (login envA initialSelfState).1

-- General lemmas about the operations, shared by several developments.

theorem logout_noop (env : Env) (s : SelfState) (h : truthy s.idToken = false) :
    logout env s = s := by
  simp [logout, h]

theorem logout_fields (env : Env) (s : SelfState) :
    (logout env s).timeoutVar = s.timeoutVar
    ∧ (logout env s).pendingTimers = s.pendingTimers
    ∧ (logout env s).refreshCalls = s.refreshCalls
    ∧ (logout env s).hasReset = s.hasReset := by
  unfold logout
  cases h : truthy s.idToken <;> cases env.cognitoDomain <;>
    simp [resetUserData]

theorem logout_idToken_none (env : Env) (s : SelfState)
    (h : truthy s.idToken = true) : (logout env s).idToken = none := by
  unfold logout
  cases env.cognitoDomain <;> simp [h, resetUserData]

theorem isAuthenticated_logout (env : Env) (s : SelfState) :
    isAuthenticated (logout env s) = false := by
  cases h : truthy s.idToken
  · rw [logout_noop env s h, isAuthenticated, h]
  · rw [isAuthenticated, logout_idToken_none env s h]; rfl

theorem setCredentials_fields (env : Env) (s : SelfState) :
    (setCredentials env s).1.idToken = s.idToken
    ∧ (setCredentials env s).1.localStorage = s.localStorage
    ∧ (setCredentials env s).1.redirects = s.redirects := by
  rcases hI : s.idToken with _ | t
  · simp [setCredentials, newTimer, hI]
  · rcases hD : env.decode t with _ | p
    · simp [setCredentials, newTimer, hI, hD]
    · rcases hE : env.refreshError with _ | e <;>
        simp [setCredentials, newTimer, hI, hD, hE]

/-- C5: a decodable token is treated as expired (`valid` is false) exactly
when `expiryEpochSeconds * 1000 <= now`; in particular expiry equal to `now`
is expired, and a strictly-future expiry is not. -/
theorem c5_token_expiry_boundary (p : TokenPayload) (now : Int) :
    (tokenValid p now = false ↔ p.exp * 1000 ≤ now)
    ∧ (tokenValid p now = true ↔ now < p.exp * 1000) := by
  constructor
  · simp [tokenValid]
  · simp [tokenValid]

/-- Witness for C5 at a concrete boundary input: expiry epoch second 1 and
clock exactly at millisecond 1000. -/
theorem c5_token_expiry_boundary_witness :
    tokenValid { exp := 1, preferredRole := none } 1000 = false :=
  (c5_token_expiry_boundary { exp := 1, preferredRole := none } 1000).1.mpr (by decide)

/-- C6: for an authenticated session with a decodable token, `isAdmin` is
true exactly when the preferred-role string contains `-CognitoAdminRole-`;
when the role claim is absent or empty, `isAdmin` and `isRegistered` are
both false. -/
theorem c6_isAdmin_iff_role_marker (env : Env) (s : SelfState) (t : String)
    (p : TokenPayload) (ht : s.idToken = some t) (hne : t ≠ "")
    (hd : env.decode t = some p) :
    (isAdmin env s = some true ↔
      strIncludes (p.preferredRole.getD "") "-CognitoAdminRole-" = true)
    ∧ (p.preferredRole.getD "" = "" →
      isAdmin env s = some false ∧ isRegistered env s = some false) := by
  have htr : truthy s.idToken = true := by
    rw [ht]; simp [truthy, hne]
  have hpr : getPreferredRole env s = some (p.preferredRole.getD "") := by
    simp only [getPreferredRole, ht]
    rw [hd]
    cases hrole : p.preferredRole <;> simp [hrole]
  constructor
  · simp [isAdmin, htr, hpr]
  · intro hrole
    have ha : strIncludes "" "-CognitoAdminRole-" = false := by decide
    have hb : strIncludes "" "-CognitoRegisteredRole-" = false := by decide
    rw [hrole] at hpr
    constructor
    · simp [isAdmin, htr, hpr, ha]
    · simp [isRegistered, htr, hpr, ha, hb]

/-- Witness for C6 at the concrete admin token `ABC` in `envA`. -/
theorem c6_isAdmin_iff_role_marker_witness :
    isAdmin envA sAuth = some true :=
  (c6_isAdmin_iff_role_marker envA sAuth "ABC"
    { exp := 2, preferredRole := some "x-CognitoAdminRole-y" }
    (by decide) (by decide) (by decide)).1.mpr (by decide)

/-- C10: whenever `isAdmin` holds (admin marker in the preferred role),
`isRegistered` holds as well, because the registered predicate accepts either
marker. -/
theorem c10_isAdmin_implies_isRegistered (env : Env) (s : SelfState)
    (h : isAdmin env s = some true) : isRegistered env s = some true := by
  unfold isAdmin at h
  unfold isRegistered
  cases htr : truthy s.idToken with
  | false => rw [htr] at h; simp at h
  | true =>
    cases hpr : getPreferredRole env s with
    | none => rw [htr, hpr] at h; simp at h
    | some role =>
      rw [htr, hpr] at h
      simp at h
      simp [h]

/-- Witness for C10 at the concrete admin token `ABC` in `envA`. -/
theorem c10_isAdmin_implies_isRegistered_witness :
    isRegistered envA sAuth = some true :=
  c10_isAdmin_implies_isRegistered envA sAuth (by decide)

/-- C9: `logout` is idempotent — running it twice equals running it once, the
run adds at most one redirect attempt, and from an unauthenticated state it
is a complete no-op (no redirect, no mutation). -/
theorem c9_logout_idempotent (env : Env) (s : SelfState) :
    logout env (logout env s) = logout env s
    ∧ (logout env s).redirects.length ≤ s.redirects.length + 1
    ∧ (truthy s.idToken = false → logout env s = s) := by
  refine ⟨?_, ?_, fun h => logout_noop env s h⟩
  · cases h : truthy s.idToken
    · rw [logout_noop env s h]
      exact logout_noop env s h
    · apply logout_noop
      rw [show (logout env s).idToken = none from logout_idToken_none env s h]
      rfl
  · unfold logout
    cases h : truthy s.idToken <;> cases env.cognitoDomain <;>
      simp [resetUserData]

/-- Witness for C9 from the concrete unauthenticated start state. -/
theorem c9_logout_idempotent_witness :
    logout envA (logout envA initialSelfState) = logout envA initialSelfState
    ∧ (logout envA initialSelfState).redirects.length ≤
        initialSelfState.redirects.length + 1
    ∧ logout envA initialSelfState = initialSelfState :=
  ⟨(c9_logout_idempotent envA initialSelfState).1,
   (c9_logout_idempotent envA initialSelfState).2.1,
   (c9_logout_idempotent envA initialSelfState).2.2 (by decide)⟩

/-- C8: when the credentials refresh fails, `setCredentials` reports the
failure to its caller as a rejected promise and logs it, while the session
token, the persisted storage, and the redirect history are left untouched
(no logout, no clearing, no redirect). -/
theorem c8_refresh_failure_frame (env : Env) (s : SelfState) (t : String)
    (p : TokenPayload) (e : String) (ht : s.idToken = some t)
    (hd : env.decode t = some p) (he : env.refreshError = some e) :
    (setCredentials env s).2 = SCOutcome.promiseRejected e
    ∧ (setCredentials env s).1.idToken = s.idToken
    ∧ (setCredentials env s).1.localStorage = s.localStorage
    ∧ (setCredentials env s).1.redirects = s.redirects
    ∧ (setCredentials env s).1.errorLogs = s.errorLogs + 1 := by
  unfold setCredentials newTimer
  simp [ht, hd, he]

/-- Witness for C8 in the environment with a failing exchange. -/
theorem c8_refresh_failure_frame_witness :
    (setCredentials envC sAuth).2 = SCOutcome.promiseRejected "NetworkingError"
    ∧ (setCredentials envC sAuth).1.idToken = sAuth.idToken
    ∧ (setCredentials envC sAuth).1.localStorage = sAuth.localStorage
    ∧ (setCredentials envC sAuth).1.redirects = sAuth.redirects
    ∧ (setCredentials envC sAuth).1.errorLogs = sAuth.errorLogs + 1 :=
  c8_refresh_failure_frame envC sAuth "ABC"
    { exp := 2, preferredRole := some "x-CognitoAdminRole-y" }
    "NetworkingError" (by decide) (by decide) (by decide)

theorem logout_refreshCalls (env : Env) (s : SelfState) :
    (logout env s).refreshCalls = s.refreshCalls :=
  (logout_fields env s).2.2.1

theorem init_invalid_eq (env : Env) (s : SelfState) (tok : String)
    (hst : lsGet s.localStorage env.cognitoUserPoolId = some tok)
    (hval : ∀ p, env.decode tok = some p → tokenValid p env.now = false) :
    ∃ n, init env s = logout env { s with errorLogs := s.errorLogs + n } := by
  by_cases htok : tok = ""
  · exact ⟨0, by simp [init, hst, htok]⟩
  · have hbeq : (tok == "") = false := beq_eq_false_iff_ne.mpr htok
    rcases hdec : env.decode tok with _ | p
    · exact ⟨1, by simp [init, hst, hbeq, hdec]⟩
    · exact ⟨0, by simp [init, hst, hbeq, hdec, hval p hdec]⟩

/-- C7: when the persisted token is expired or cannot be decoded, `init`
finishes without an exception escaping (decode failures are caught and only
logged), the resulting session is unauthenticated, and no credentials
exchange is attempted. -/
theorem c7_init_invalid_token_degrades (env : Env) (s : SelfState) (tok : String)
    (hst : lsGet s.localStorage env.cognitoUserPoolId = some tok)
    (hbad : env.decode tok = none ∨
      ∃ p, env.decode tok = some p ∧ p.exp * 1000 ≤ env.now) :
    isAuthenticated (init env s) = false
    ∧ (init env s).refreshCalls = s.refreshCalls := by
  have hval : ∀ p, env.decode tok = some p → tokenValid p env.now = false := by
    intro p hp
    rcases hbad with hn | ⟨q, hq, hle⟩
    · rw [hp] at hn; cases hn
    · rw [hp] at hq
      injection hq with hq
      subst hq
      exact decide_eq_false (not_lt.mpr hle)
  obtain ⟨n, hn⟩ := init_invalid_eq env s tok hst hval
  rw [hn]
  exact ⟨isAuthenticated_logout _ _, by rw [logout_refreshCalls]⟩

/-- Witness for C7 at the spec scenario: token with `expiryEpochSeconds = 1`
persisted under the pool key, clock far past it. -/
theorem c7_init_invalid_token_degrades_witness :
    isAuthenticated (init envD sOld) = false
    ∧ (init envD sOld).refreshCalls = sOld.refreshCalls :=
  c7_init_invalid_token_degrades envD sOld "OLD" (by decide)
    (Or.inr ⟨{ exp := 1, preferredRole := none }, by decide, by decide⟩)

/-- Counterexample to C2 as stated: with fragment `#access_token=ABC` the
promise returned by `login` is left pending forever — the executor calls
neither `resolve` nor `reject` — rather than resolving to a rejected
result.  The state is indeed unchanged. -/
theorem c2_login_access_token_cex :
    login envB initialSelfState = (initialSelfState, LoginResult.pending)
    ∧ LoginResult.pending ≠ LoginResult.rejected := by decide

/-- C2 (amended): for every location fragment with no truthy `id_token`
parameter, the promise returned by `login` never settles (neither resolved
nor rejected) and the session state — store token and persisted storage —
is completely unchanged. -/
theorem c2_login_no_token_leaves_state (env : Env) (s : SelfState)
    (h : truthy (extractIdToken env.locationHash) = false) :
    login env s = (s, LoginResult.pending) := by
  unfold login
  rcases he : extractIdToken env.locationHash with _ | tok
  · simp
  · rw [he] at h
    simp only [truthy, bne_eq_false_iff_eq] at h
    subst h
    simp

/-- Witness for C2 (amended) from an authenticated concrete state. -/
theorem c2_login_no_token_leaves_state_witness :
    login envB sAuth = (sAuth, LoginResult.pending) :=
  c2_login_no_token_leaves_state envB sAuth (by decide)

/-- Counterexample to C1 as stated: run `login` (which schedules inactivity
timer 1) and then `logout`.  Afterwards the session is unauthenticated, yet
the timer variable still holds the handle and the browser still holds the
pending deadline: `logout` did not cancel it, and a pending timer exists
without an authenticated session. -/
theorem c1_logout_keeps_deadline_cex :
    isAuthenticated (login envA initialSelfState).1 = true
    ∧ isAuthenticated (logout envA (login envA initialSelfState).1) = false
    ∧ (logout envA (login envA initialSelfState).1).timeoutVar = some 1
    ∧ (logout envA (login envA initialSelfState).1).pendingTimers = [1] := by
  decide

/-- C1 (amended): `logout()` from an authenticated state with a pending
inactivity deadline clears the session but does NOT cancel the deadline —
the handle and the pending browser timer survive, so a pending timer exists
while unauthenticated.  The surviving deadline is harmless: when it fires,
the defensive check in `logoutInactive` finds no token and only nulls the
handle, with no state mutation, no storage change and no redirect. -/
theorem c1_logout_leaves_deadline_pending (env : Env) (s : SelfState) (id : Nat)
    (htv : s.timeoutVar = some id)
    (hmem : s.pendingTimers.contains id = true)
    (hauth : truthy s.idToken = true)
    (hr : s.hasReset = false) :
    isAuthenticated (logout env s) = false
    ∧ (logout env s).timeoutVar = some id
    ∧ (logout env s).pendingTimers = s.pendingTimers
    ∧ (fireTimer env id (logout env s)).idToken = none
    ∧ (fireTimer env id (logout env s)).redirects = (logout env s).redirects
    ∧ (fireTimer env id (logout env s)).localStorage = (logout env s).localStorage
    ∧ (fireTimer env id (logout env s)).timeoutVar = none := by
  have h1 : (logout env s).timeoutVar = some id := by
    rw [(logout_fields env s).1, htv]
  have h2 : (logout env s).pendingTimers = s.pendingTimers :=
    (logout_fields env s).2.1
  have h3 : (logout env s).hasReset = false := by
    rw [(logout_fields env s).2.2.2, hr]
  have h0 : (logout env s).idToken = none := logout_idToken_none env s hauth
  have hfire : fireTimer env id (logout env s)
      = { clearTimer (logout env s) id with timeoutVar := none } := by
    unfold fireTimer
    rw [h2, hmem]
    simp only [if_true]
    unfold logoutInactive
    have ha : (clearTimer (logout env s) id).timeoutVar = some id := h1
    have hb : (clearTimer (logout env s) id).hasReset = false := h3
    have hc : (clearTimer (logout env s) id).idToken = none := h0
    rw [ha, hb]
    simp [hc, truthy]
  refine ⟨isAuthenticated_logout env s, h1, h2, ?_, ?_, ?_, ?_⟩ <;>
    rw [hfire] <;> simp [clearTimer, h0]

/-- Witness for C1 (amended) on the concrete post-login state. -/
theorem c1_logout_leaves_deadline_pending_witness :
    (logout envA sLoggedIn).timeoutVar = some 1
    ∧ isAuthenticated (logout envA sLoggedIn) = false :=
  ⟨(c1_logout_leaves_deadline_pending envA sLoggedIn 1
      (by decide) (by decide) (by decide) (by decide)).2.1,
   (c1_logout_leaves_deadline_pending envA sLoggedIn 1
      (by decide) (by decide) (by decide) (by decide)).1⟩

theorem refreshActivity_of_hasReset (s : SelfState) (h : s.hasReset = true) :
    refreshActivity s = s := by
  simp [refreshActivity, h]

theorem refreshActivity_iterate_fix (n : Nat) (s : SelfState)
    (h : s.hasReset = true) : refreshActivity^[n] s = s := by
  induction n with
  | zero => rfl
  | succ m ih =>
    rw [Function.iterate_succ_apply, refreshActivity_of_hasReset s h, ih]

theorem refreshActivity_step (s : SelfState) (id : Nat)
    (htv : s.timeoutVar = some id) (hr : s.hasReset = false) :
    (refreshActivity s).reschedules = s.reschedules + 1
    ∧ (refreshActivity s).hasReset = true
    ∧ (refreshActivity s).rafPending = true
    ∧ (refreshActivity s).timeoutVar = some s.nextTimerId := by
  simp [refreshActivity, htv, hr, newTimer, clearTimer]

theorem animationFrame_of_rafPending (s : SelfState) (h : s.rafPending = true) :
    animationFrame s = { s with hasReset := false, rafPending := false } := by
  simp [animationFrame, h]

/-- C4: with an inactivity timer pending and the throttle open, a burst of
N ≥ 1 activity signals inside one animation frame performs exactly one
cancel-and-reschedule (the other N−1 signals are no-ops — the whole burst
equals a single signal and bumps the reset count by exactly one), and after
the animation-frame callback runs the window reopens: the next signal
performs the next reschedule. -/
theorem c4_activity_signals_coalesce (s : SelfState) (id N : Nat)
    (htv : s.timeoutVar = some id) (hr : s.hasReset = false) (hN : 1 ≤ N) :
    refreshActivity^[N] s = refreshActivity s
    ∧ (refreshActivity^[N] s).reschedules = s.reschedules + 1
    ∧ (refreshActivity (animationFrame (refreshActivity^[N] s))).reschedules
        = s.reschedules + 2 := by
  obtain ⟨step1, hR, hRaf, hTv⟩ := refreshActivity_step s id htv hr
  obtain ⟨M, rfl⟩ : ∃ M, N = M + 1 := ⟨N - 1, by omega⟩
  have hiter : refreshActivity^[M + 1] s = refreshActivity s := by
    rw [Function.iterate_succ_apply]
    exact refreshActivity_iterate_fix M _ hR
  refine ⟨hiter, by rw [hiter, step1], ?_⟩
  rw [hiter, animationFrame_of_rafPending _ hRaf]
  obtain ⟨step2, _, _, _⟩ :=
    refreshActivity_step
      { refreshActivity s with hasReset := false, rafPending := false }
      s.nextTimerId hTv rfl
  rw [step2]
  simp [step1]

/-- Witness for C4: a burst of three signals on the concrete post-login
state. -/
theorem c4_activity_signals_coalesce_witness :
    refreshActivity^[3] sLoggedIn = refreshActivity sLoggedIn
    ∧ (refreshActivity^[3] sLoggedIn).reschedules = sLoggedIn.reschedules + 1
    ∧ (refreshActivity (animationFrame (refreshActivity^[3] sLoggedIn))).reschedules
        = sLoggedIn.reschedules + 2 :=
  c4_activity_signals_coalesce sLoggedIn 1 3 (by decide) (by decide) (by decide)

theorem string_mk_data (s : String) : String.mk s.data = s := by
  cases s
  rfl

theorem splitOnChar_of_not_mem (c : Char) (l : List Char) (h : c ∉ l) :
    splitOnChar c l = [l] := by
  induction l with
  | nil => rfl
  | cons x xs ih =>
    have hx : (x == c) = false :=
      beq_eq_false_iff_ne.mpr (fun e => h (by simp [e]))
    have ih2 := ih (fun hm => h (List.mem_cons_of_mem _ hm))
    simp [splitOnChar, hx, ih2]

theorem splitOnChar_append (c : Char) (l₁ l₂ : List Char) (h : c ∉ l₁) :
    splitOnChar c (l₁ ++ c :: l₂) = l₁ :: splitOnChar c l₂ := by
  induction l₁ with
  | nil => simp [splitOnChar]
  | cons x xs ih =>
    have hx : (x == c) = false :=
      beq_eq_false_iff_ne.mpr (fun e => h (by simp [e]))
    have ih2 := ih (fun hm => h (List.mem_cons_of_mem _ hm))
    simp [splitOnChar, hx, ih2]

theorem extractIdToken_clean (tok : String)
    (h1 : '&' ∉ tok.data) (h2 : '=' ∉ tok.data) :
    extractIdToken ("#id_token=" ++ tok ++ "&other=x") = some tok := by
  have hlit : "#id_token=".data
      = '#' :: ((['i', 'd', '_', 't', 'o', 'k', 'e', 'n'] : List Char) ++ ['=']) := rfl
  have hlit2 : "&other=x".data
      = '&' :: (['o', 't', 'h', 'e', 'r', '=', 'x'] : List Char) := rfl
  have hdata : ("#id_token=" ++ tok ++ "&other=x").data
      = '#' :: (((['i', 'd', '_', 't', 'o', 'k', 'e', 'n'] : List Char) ++ '=' :: tok.data)
          ++ '&' :: (['o', 't', 'h', 'e', 'r', '=', 'x'] : List Char)) := by
    rw [String.data_append, String.data_append, hlit, hlit2]
    simp [List.append_assoc]
  have hA : ('&' : Char) ∉
      ((['i', 'd', '_', 't', 'o', 'k', 'e', 'n'] : List Char) ++ '=' :: tok.data) := by
    intro hm
    rcases List.mem_append.mp hm with hm | hm
    · revert hm; decide
    · rcases List.mem_cons.mp hm with hm | hm
      · exact absurd hm (by decide)
      · exact h1 hm
  have hB : ('=' : Char) ∉ (['i', 'd', '_', 't', 'o', 'k', 'e', 'n'] : List Char) := by
    decide
  have hC : ('&' : Char) ∉ (['o', 't', 'h', 'e', 'r', '=', 'x'] : List Char) := by
    decide
  have hD : splitOnChar '=' (['o', 't', 'h', 'e', 'r', '=', 'x'] : List Char)
      = [['o', 't', 'h', 'e', 'r'], ['x']] := by decide
  have hob : ((some (['o', 't', 'h', 'e', 'r'] : List Char))
      == some (['i', 'd', '_', 't', 'o', 'k', 'e', 'n'] : List Char)) = false := by decide
  have hsharp : (('#' : Char) == '#') = true := rfl
  simp only [extractIdToken, hdata, stripLeadingHash]
  rw [if_pos hsharp]
  rw [splitOnChar_append '&' _ _ hA, splitOnChar_of_not_mem '&' _ hC]
  simp only [List.map_cons, List.map_nil]
  rw [splitOnChar_append '=' _ _ hB, splitOnChar_of_not_mem '=' _ h2, hD]
  simp [hob, string_mk_data]

theorem lsGet_set_find (k v : String) (m : List (String × String))
    (h : m.any (fun p => p.1 == k) = true) :
    lsGet (m.map (fun p => if p.1 == k then (k, v) else p)) k = some v := by
  induction m with
  | nil => cases h
  | cons x xs ih =>
    cases hx : (x.1 == k) with
    | false =>
      have hxs : xs.any (fun p => p.1 == k) = true := by
        rw [List.any_cons, hx] at h
        simpa using h
      simpa [lsGet, List.find?, hx] using ih hxs
    | true =>
      simp [lsGet, List.find?, hx]

theorem lsGet_append_new (k v : String) (m : List (String × String))
    (h : m.any (fun p => p.1 == k) = false) :
    lsGet (m ++ [(k, v)]) k = some v := by
  induction m with
  | nil => simp [lsGet, List.find?]
  | cons x xs ih =>
    rw [List.any_cons] at h
    have hx : (x.1 == k) = false := by
      cases hcase : (x.1 == k)
      · rfl
      · rw [hcase] at h; simp at h
    have hxs : xs.any (fun p => p.1 == k) = false := by
      rw [hx] at h; simpa using h
    simpa [lsGet, List.find?, hx] using ih hxs

theorem lsGet_lsSet (m : List (String × String)) (k v : String) :
    lsGet (lsSet m k v) k = some v := by
  cases h : m.any (fun p => p.1 == k)
  · have := lsGet_append_new k v m h
    simpa [lsSet, h] using this
  · have := lsGet_set_find k v m h
    simpa [lsSet, h] using this

theorem setCredentials_not_thrown (env : Env) (s : SelfState) (t : String)
    (p : TokenPayload) (ht : s.idToken = some t) (hd : env.decode t = some p) :
    (setCredentials env s).2 ≠ SCOutcome.thrown := by
  unfold setCredentials newTimer
  simp only [ht, hd]
  cases env.refreshError <;> simp

theorem init_restores (env : Env) (s : SelfState) (tok : String) (p : TokenPayload)
    (hst : lsGet s.localStorage env.cognitoUserPoolId = some tok)
    (hne : tok ≠ "") (hd : env.decode tok = some p)
    (hv : tokenValid p env.now = true) :
    (init env s).idToken = some tok := by
  have hbeq : (tok == "") = false := beq_eq_false_iff_ne.mpr hne
  simp only [init, hst, hbeq, hd, hv, Bool.false_eq_true, if_false, if_true]
  rw [(setCredentials_fields env _).1]

theorem login_eq (env : Env) (s : SelfState) (tok : String) (p : TokenPayload)
    (hext : extractIdToken env.locationHash = some tok) (hne : tok ≠ "")
    (hd : env.decode tok = some p) :
    login env s
      = ((setCredentials env { s with
            localStorage := lsSet s.localStorage env.cognitoUserPoolId tok,
            idToken := some tok }).1, LoginResult.resolved tok) := by
  have hbeq : (tok == "") = false := beq_eq_false_iff_ne.mpr hne
  simp only [login, hext, hbeq, Bool.false_eq_true, if_false]
  split
  · next heq => exact absurd heq (setCredentials_not_thrown env _ tok p rfl hd)
  · rfl

/-- C3: with a fragment of the shape `#id_token=TOK&other=x` (token free of
separator characters) whose token decodes, `login` resolves with the token,
stores it in the session and persists it under the user-pool key; when the
decoded expiry is still in the future, a subsequent `init` reading that
persisted value restores an authenticated session. -/
theorem c3_login_init_round_trip (env : Env) (s : SelfState) (tok : String)
    (p : TokenPayload)
    (hamp : '&' ∉ tok.data) (heqc : '=' ∉ tok.data) (hne : tok ≠ "")
    (hhash : env.locationHash = "#id_token=" ++ tok ++ "&other=x")
    (hd : env.decode tok = some p)
    (hv : tokenValid p env.now = true) :
    (login env s).2 = LoginResult.resolved tok
    ∧ (login env s).1.idToken = some tok
    ∧ lsGet (login env s).1.localStorage env.cognitoUserPoolId = some tok
    ∧ isAuthenticated (init env (login env s).1) = true := by
  have hext : extractIdToken env.locationHash = some tok := by
    rw [hhash]; exact extractIdToken_clean tok hamp heqc
  have hlogin := login_eq env s tok p hext hne hd
  have h2 : (login env s).1.idToken = some tok := by
    simp only [hlogin]
    rw [(setCredentials_fields env _).1]
  have h3 : (login env s).1.localStorage
      = lsSet s.localStorage env.cognitoUserPoolId tok := by
    simp only [hlogin]
    rw [(setCredentials_fields env _).2.1]
  have h4 : lsGet (login env s).1.localStorage env.cognitoUserPoolId = some tok := by
    rw [h3]; exact lsGet_lsSet _ _ _
  refine ⟨by simp only [hlogin], h2, h4, ?_⟩
  rw [isAuthenticated, init_restores env _ tok p h4 hne hd hv]
  simp [truthy, hne]

/-- Witness for C3 on the concrete fragment `#id_token=ABC&other=x` in
`envA`. -/
theorem c3_login_init_round_trip_witness :
    (login envA initialSelfState).2 = LoginResult.resolved "ABC"
    ∧ isAuthenticated (init envA (login envA initialSelfState).1) = true :=
  ⟨(c3_login_init_round_trip envA initialSelfState "ABC"
      { exp := 2, preferredRole := some "x-CognitoAdminRole-y" }
      (by decide) (by decide) (by decide) (by decide) (by decide) (by decide)).1,
   (c3_login_init_round_trip envA initialSelfState "ABC"
      { exp := 2, preferredRole := some "x-CognitoAdminRole-y" }
      (by decide) (by decide) (by decide) (by decide) (by decide) (by decide)).2.2.2⟩
